import Mathlib

/-!
# Verification of the Google Sheets MCP server core

Shallow embedding of `src/google_sheets_mcp_server/server.py`:
the credential-resolution fallback chain and service-context lifecycle
(`spreadsheet_lifespan`), the API-key guard (`validate_api_key`), and the
spreadsheet tools (`get_sheet_data`, `update_cells`, `create_spreadsheet`,
`list_spreadsheets`, `add_rows`, `list_sheets`, `create_sheet`).

External effects (environment, filesystem, Google API calls, the OAuth
browser flow) are modelled by a `World` record of outcomes; each tool takes
its remote call as an explicit function argument.  Cell payloads are
modelled as strings; response types the code passes through unmodified are
type parameters.
-/

namespace SheetsServer

/-- Python truthiness of an `Optional[str]`: `None` and the empty string are falsy. -/
def pyTruthyOpt (s : Option String) : Bool :=
  s.getD "" != ""

/-- Names bound at module level in `server.py` when `spreadsheet_lifespan` runs:
the imports (note `Request` is imported under the alias `GoogleRequest`) and the
module-level assignments.  Used to model Python name lookup inside the refresh step. -/
def moduleGlobals : List String :=
  ["base64", "os", "json", "logging", "hashlib", "secrets",
   "List", "Dict", "Any", "Optional", "Union",
   "dataclass", "asynccontextmanager", "AsyncIterator",
   "FastMCP", "Context",
   "Credentials", "service_account", "GoogleRequest", "InstalledAppFlow",
   "build", "google",
   "logger", "SCOPES", "CREDENTIALS_CONFIG", "TOKEN_PATH", "CREDENTIALS_PATH",
   "SERVICE_ACCOUNT_PATH", "DRIVE_FOLDER_ID", "API_KEY",
   "SpreadsheetContext", "validate_api_key", "spreadsheet_lifespan"]

/-- Python global-name lookup in `server.py`; a name not in `moduleGlobals`
raises `NameError` when evaluated. -/
def nameDefined (n : String) : Bool :=
  moduleGlobals.contains n

/-- The credential object held in `creds` at the end of resolution, tagged by
the source that produced it.  A cached user token carries the `valid`,
`expired` and `refresh_token` attributes the code inspects. -/
inductive Creds where
  | inlineSA
  | fileSA
  | userToken (valid expired refreshable : Bool)
  | flowToken
  | adc
  deriving DecidableEq, Repr

/-- Observable external actions of `spreadsheet_lifespan`, in source order. -/
inductive Ev where
  | inlineAttempt
  | fileAttempt
  | tokenLoadAttempt
  | refreshInvoked
  | refreshError
  | flowAttempt
  | tokenSaved
  | adcAttempt
  | servicesBuilt
  | yielded
  | cleanup
  deriving DecidableEq, Repr

/-- Configuration and external-world outcomes that determine one run of
`spreadsheet_lifespan`: the environment variables and what each external
call would do if made. -/
structure World where
  credentialsConfig : Option String
  inlineParseOk : Bool
  serviceAccountPath : String
  saPathExists : Bool
  saLoadOk : Bool
  tokenPathExists : Bool
  tokenLoadOk : Bool
  tokenValid : Bool
  tokenExpired : Bool
  tokenHasRefresh : Bool
  refreshSucceeds : Bool
  flowSucceeds : Bool
  tokenSaveOk : Bool
  adcSucceeds : Bool
  sheetsBuildOk : Bool
  driveBuildOk : Bool
  driveFolderId : String
  bodyOk : Bool
  deriving DecidableEq, Repr

/-- Sequencing of the fallback chain: every later source is guarded by
`if not creds:` in the code, so a produced credential short-circuits. -/
def chain (acc : Option Creds × List Ev) (next : Unit → Option Creds × List Ev) :
    Option Creds × List Ev :=
  match acc with
  | (some c, t) => (some c, t)
  | (none, t) => ((next ()).1, t ++ (next ()).2)

/-- Priority 1 (`server.py` lines 80-87): decode the base64 `CREDENTIALS_CONFIG`
blob into service-account credentials; any exception is logged and swallowed. -/
def inlineStep (w : World) : Option Creds × List Ev :=
  if pyTruthyOpt w.credentialsConfig then
    if w.inlineParseOk then (some Creds.inlineSA, [Ev.inlineAttempt])
    else (none, [Ev.inlineAttempt])
  else (none, [])

/-- Priority 2 (lines 93-103): load a service-account file when
`SERVICE_ACCOUNT_PATH` is truthy and the path exists; errors are swallowed. -/
def fileStep (w : World) : Option Creds × List Ev :=
  if (w.serviceAccountPath != "") && w.saPathExists then
    if w.saLoadOk then (some Creds.fileSA, [Ev.fileAttempt])
    else (none, [Ev.fileAttempt])
  else (none, [])

/-- Whether the cached token file was found and parsed (lines 108-114). -/
def tokenLoaded (w : World) : Bool :=
  w.tokenPathExists && w.tokenLoadOk

/-- Trace of the token-load attempt: entering the `try` at line 109. -/
def oauthLoadTrace (w : World) : List Ev :=
  if w.tokenPathExists then [Ev.tokenLoadAttempt] else []

/-- Lines 118-124: `if creds and creds.expired and creds.refresh_token:` then
`creds.refresh(Request())` inside a `try`.  Evaluating the argument looks up
the global name `Request`; if undefined this raises `NameError` before
`creds.refresh` is invoked, and the `except` clause sets `creds = None`. -/
def refreshStep (w : World) : Option Creds × List Ev :=
  if tokenLoaded w && w.tokenExpired && w.tokenHasRefresh then
    if nameDefined "Request" then
      if w.refreshSucceeds then
        (some (Creds.userToken true false w.tokenHasRefresh),
         oauthLoadTrace w ++ [Ev.refreshInvoked])
      else (none, oauthLoadTrace w ++ [Ev.refreshInvoked, Ev.refreshError])
    else (none, oauthLoadTrace w ++ [Ev.refreshError])
  else
    ((if tokenLoaded w then
        some (Creds.userToken w.tokenValid w.tokenExpired w.tokenHasRefresh)
      else none),
     oauthLoadTrace w)

/-- Lines 126-138: the interactive OAuth flow; the whole `try` (client-secret
load, local-server flow, token save) shares one `except` that sets
`creds = None`. -/
def flowStep (w : World) : Option Creds × List Ev :=
  if w.flowSucceeds then
    if w.tokenSaveOk then (some Creds.flowToken, [Ev.flowAttempt, Ev.tokenSaved])
    else (none, [Ev.flowAttempt])
  else (none, [Ev.flowAttempt])

/-- Priority 3 (lines 106-138): load the cached token; when it is present and
valid keep it, otherwise run the refresh branch and, only if `creds` is falsy
afterwards (`if not creds:` line 126), the interactive flow. -/
def oauthStep (w : World) : Option Creds × List Ev :=
  if tokenLoaded w && w.tokenValid then
    (some (Creds.userToken w.tokenValid w.tokenExpired w.tokenHasRefresh),
     oauthLoadTrace w)
  else
    chain (refreshStep w) (fun _ => flowStep w)

/-- The chain of priorities 1-3. -/
def resolveCredsOpt (w : World) : Option Creds × List Ev :=
  chain (chain (inlineStep w) (fun _ => fileStep w)) (fun _ => oauthStep w)

/-- The fatal message raised at line 148. -/
def allAuthFailedMsg : String :=
  "All authentication methods failed. Please configure credentials."

/-- Full credential resolution, lines 77-148: priorities 1-3 then Application
Default Credentials; if ADC also fails, a fatal exception is raised. -/
def resolveCreds (w : World) : Except String Creds × List Ev :=
  match resolveCredsOpt w with
  | (some c, t) => (Except.ok c, t)
  | (none, t) =>
      if w.adcSucceeds then (Except.ok Creds.adc, t ++ [Ev.adcAttempt])
      else (Except.error allAuthFailedMsg, t ++ [Ev.adcAttempt])

/-- The `SpreadsheetContext` dataclass (lines 55-60); the two service handles
are modelled by the credential they were built from. -/
structure SpreadsheetContext where
  sheets_service : Creds
  drive_service : Creds
  folder_id : Option String
  deriving DecidableEq, Repr

/-- `spreadsheet_lifespan` (lines 71-169): resolve credentials, build the two
service handles (build failure is re-raised, lines 150-157), then yield the
context inside `try ... finally` (lines 159-169); the cleanup step runs only
when the `yield` was reached. -/
def spreadsheet_lifespan (w : World) : Except String SpreadsheetContext × List Ev :=
  match resolveCreds w with
  | (Except.error e, t) => (Except.error e, t)
  | (Except.ok creds, t) =>
      if w.sheetsBuildOk && w.driveBuildOk then
        let ctxObj : SpreadsheetContext :=
          { sheets_service := creds
            drive_service := creds
            folder_id := if w.driveFolderId != "" then some w.driveFolderId else none }
        if w.bodyOk then
          (Except.ok ctxObj, t ++ [Ev.servicesBuilt, Ev.yielded, Ev.cleanup])
        else
          (Except.error "server body raised", t ++ [Ev.servicesBuilt, Ev.yielded, Ev.cleanup])
      else (Except.error "Error building Google API services", t)

/-- Source 1 succeeds: `CREDENTIALS_CONFIG` is set, non-empty and parses. -/
def inlineOk (w : World) : Bool :=
  pyTruthyOpt w.credentialsConfig && w.inlineParseOk

/-- Source 2 succeeds when reached: the service-account path is truthy,
exists, and loads. -/
def fileOk (w : World) : Bool :=
  (w.serviceAccountPath != "") && w.saPathExists && w.saLoadOk

/-- Source 3 yields a valid credential when reached: the cached token loads
valid, or it is expired and refreshable and the in-place refresh (which
requires the name `Request` to resolve) succeeds. -/
def tokenOk (w : World) : Bool :=
  (tokenLoaded w && w.tokenValid) ||
  (tokenLoaded w && !w.tokenValid && w.tokenExpired && w.tokenHasRefresh &&
   nameDefined "Request" && w.refreshSucceeds)

/-- Source 4 succeeds when reached: the interactive flow completes and the
token save does not raise. -/
def flowOk (w : World) : Bool :=
  w.flowSucceeds && w.tokenSaveOk

/-! ## API-key guard -/

/-- Functional behaviour of `secrets.compare_digest` on the UTF-8 encodings of
two strings: bit-for-bit equality.  (The constant-time execution of the
primitive is a property of the Python standard library, not modelled here.) -/
def compare_digest (a b : String) : Bool :=
  a == b

/-- `validate_api_key` (lines 64-68), with the module-level `API_KEY` passed
explicitly: false when either string is falsy, else `secrets.compare_digest`. -/
def validate_api_key (provided_key : String) (apiKey : String) : Bool :=
  if provided_key == "" || apiKey == "" then false
  else compare_digest provided_key apiKey

/-- Module-level `API_KEY` computation (lines 47-52): take `MCP_API_KEY` from
the environment; when unset or empty, use the freshly generated
`secrets.token_urlsafe(32)` value. -/
def apiKeyStartup (envKey : Option String) (generated : String) : String :=
  if pyTruthyOpt envKey then envKey.getD "" else generated

/-! ## Tools

Each tool takes its remote call as an explicit function returning
`Except String _` (an exception from `.execute()` is the `error` case) and
returns the tool result paired with the log messages it emits.  Log messages
are modelled structurally, one constructor per `logger` call, carrying the
data interpolated into the message. -/

/-- Cell payloads (`Any` in the source) are modelled as strings. -/
abbrev Cell := String

/-- Log messages emitted by the tools, one constructor per `logger.info` /
`logger.error` call site, carrying the interpolated operation context. -/
inductive LogMsg where
  | retrievedData (spreadsheetId sheet rangeOrAllStr : String)
  | errorGettingSheetData (e : String)
  | updatedCells (spreadsheetId sheet range : String)
  | errorUpdatingCells (e : String)
  | createdSpreadsheet (title : String) (id : Option String)
  | errorCreatingSpreadsheet (e : String)
  | foundSpreadsheets (n : Nat)
  | errorListingSpreadsheets (e : String)
  | addedRows (n : Nat) (spreadsheetId sheet : String)
  | errorAddingRows (e : String)
  | foundSheets (n : Nat) (spreadsheetId : String)
  | errorListingSheets (e : String)
  | createdSheet (title spreadsheetId : String)
  | errorCreatingSheet (e : String)
  deriving DecidableEq, Repr

/-- Range construction in `get_sheet_data` (lines 226-229): `if range:` is
Python truthiness, so `None` and the empty string both give the bare sheet. -/
def fullRangeOf (sheet : String) (range : Option String) : String :=
  if pyTruthyOpt range then sheet ++ "!" ++ range.getD "" else sheet

/-- The `range or 'all'` fragment of the success log at line 255. -/
def rangeOrAll (range : Option String) : String :=
  if pyTruthyOpt range then range.getD "" else "all"

/-- Request of `spreadsheets().values().get` (lines 241-244). -/
structure ValuesGetRequest where
  spreadsheetId : String
  range : String
  deriving DecidableEq, Repr

/-- Request of `spreadsheets().get` with grid data (lines 234-238). -/
structure GridGetRequest where
  spreadsheetId : String
  ranges : List String
  includeGridData : Bool
  deriving DecidableEq, Repr

/-- Response of the values API; the `values` key may be absent. -/
structure ValuesGetResponse where
  values : Option (List (List Cell))
  deriving DecidableEq, Repr

/-- One element of `valueRanges` in the reshaped response (lines 249-252). -/
structure ValueRange where
  range : String
  values : List (List Cell)
  deriving DecidableEq, Repr

/-- The reshaped values-only response (lines 247-253). -/
structure ValuesOnlyResult where
  spreadsheetId : String
  valueRanges : List ValueRange
  deriving DecidableEq, Repr

/-- Result of `get_sheet_data`: either the native grid structure `G`
passed through unmodified, or the reshaped values-only structure. -/
inductive GetSheetDataOk (G : Type) where
  | grid (g : G)
  | valuesOnly (r : ValuesOnlyResult)
  deriving DecidableEq, Repr

/-- The values request `get_sheet_data` sends (lines 241-244). -/
def values_get_request (spreadsheet_id sheet : String) (range : Option String) :
    ValuesGetRequest :=
  { spreadsheetId := spreadsheet_id, range := fullRangeOf sheet range }

/-- The grid request `get_sheet_data` sends (lines 234-238). -/
def grid_get_request (spreadsheet_id sheet : String) (range : Option String) :
    GridGetRequest :=
  { spreadsheetId := spreadsheet_id
    ranges := [fullRangeOf sheet range]
    includeGridData := true }

/-- `get_sheet_data` (lines 202-259). -/
def get_sheet_data {G : Type} (spreadsheet_id sheet : String) (range : Option String)
    (include_grid_data : Bool)
    (remoteGrid : GridGetRequest → Except String G)
    (remoteValues : ValuesGetRequest → Except String ValuesGetResponse) :
    Except String (GetSheetDataOk G) × List LogMsg :=
  if include_grid_data then
    match remoteGrid (grid_get_request spreadsheet_id sheet range) with
    | Except.ok g =>
        (Except.ok (GetSheetDataOk.grid g),
         [LogMsg.retrievedData spreadsheet_id sheet (rangeOrAll range)])
    | Except.error e => (Except.error e, [LogMsg.errorGettingSheetData e])
  else
    match remoteValues (values_get_request spreadsheet_id sheet range) with
    | Except.ok vr =>
        (Except.ok (GetSheetDataOk.valuesOnly
          { spreadsheetId := spreadsheet_id
            valueRanges := [{ range := fullRangeOf sheet range
                              values := vr.values.getD [] }] }),
         [LogMsg.retrievedData spreadsheet_id sheet (rangeOrAll range)])
    | Except.error e => (Except.error e, [LogMsg.errorGettingSheetData e])

/-- Request of `spreadsheets().values().update` (lines 292-297). -/
structure ValuesUpdateRequest where
  spreadsheetId : String
  range : String
  valueInputOption : String
  values : List (List Cell)
  deriving DecidableEq, Repr

/-- The update request `update_cells` sends (lines 283-297). -/
def update_cells_request (spreadsheet_id sheet range : String)
    (data : List (List Cell)) : ValuesUpdateRequest :=
  { spreadsheetId := spreadsheet_id
    range := sheet ++ "!" ++ range
    valueInputOption := "USER_ENTERED"
    values := data }

/-- `update_cells` (lines 262-303); the native update result `U` is returned
unmodified. -/
def update_cells {U : Type} (spreadsheet_id sheet range : String)
    (data : List (List Cell)) (remote : ValuesUpdateRequest → Except String U) :
    Except String U × List LogMsg :=
  match remote (update_cells_request spreadsheet_id sheet range data) with
  | Except.ok r => (Except.ok r, [LogMsg.updatedCells spreadsheet_id sheet range])
  | Except.error e => (Except.error e, [LogMsg.errorUpdatingCells e])

/-- Request body of `drive_service.files().create` (lines 321-326). -/
structure FileBody where
  name : String
  mimeType : String
  parents : Option (List String)
  deriving DecidableEq, Repr

/-- Response of `files().create` with `fields='id, name, parents'`; every
key may be absent. -/
structure DriveFile where
  id : Option String
  name : Option String
  parents : Option (List String)
  deriving DecidableEq, Repr

/-- The return shape of `create_spreadsheet` (lines 340-344). -/
structure CreateSpreadsheetResult where
  spreadsheetId : Option String
  title : String
  folder : String
  deriving DecidableEq, Repr

/-- The request body `create_spreadsheet` builds (lines 321-326): `parents`
is set, to the single configured folder, only when `folder_id` is truthy. -/
def create_file_body (title : String) (folder_id : Option String) : FileBody :=
  let base : FileBody :=
    { name := title
      mimeType := "application/vnd.google-apps.spreadsheet"
      parents := none }
  match folder_id with
  | some f => if f != "" then { base with parents := some [f] } else base
  | none => base

/-- `parents[0] if parents else 'root'` (line 343): first element of the
response parents when that list is present and non-empty, else `"root"`. -/
def folderField (parents : Option (List String)) : String :=
  match parents with
  | some (p :: _) => p
  | some [] => "root"
  | none => "root"

/-- `create_spreadsheet` (lines 306-347). -/
def create_spreadsheet (title : String) (folder_id : Option String)
    (remote : FileBody → Except String DriveFile) :
    Except String CreateSpreadsheetResult × List LogMsg :=
  match remote (create_file_body title folder_id) with
  | Except.ok f =>
      (Except.ok { spreadsheetId := f.id
                   title := f.name.getD title
                   folder := folderField f.parents },
       [LogMsg.createdSpreadsheet title f.id])
  | Except.error e => (Except.error e, [LogMsg.errorCreatingSpreadsheet e])

/-- Request of `drive_service.files().list` (lines 373-380); the query string
is modelled structurally as its mimeType clause plus the optional
folder-in-parents clause. -/
structure DriveListRequest where
  mimeTypeFilter : String
  folderFilter : Option String
  spaces : String
  includeItemsFromAllDrives : Bool
  supportsAllDrives : Bool
  fields : String
  orderBy : String
  deriving DecidableEq, Repr

/-- One entry of the `files` list in the Drive list response. -/
structure DriveListFile where
  id : String
  name : String
  deriving DecidableEq, Repr

/-- Response of `files().list`; the `files` key may be absent. -/
structure DriveListResponse where
  files : Option (List DriveListFile)
  deriving DecidableEq, Repr

/-- One entry of the `list_spreadsheets` result (line 385). -/
structure SpreadsheetEntry where
  id : String
  title : String
  deriving DecidableEq, Repr

/-- The list request `list_spreadsheets` sends (lines 362-380). -/
def list_spreadsheets_request (folder_id : Option String) : DriveListRequest :=
  { mimeTypeFilter := "application/vnd.google-apps.spreadsheet"
    folderFilter := match folder_id with
      | some f => if f != "" then some f else none
      | none => none
    spaces := "drive"
    includeItemsFromAllDrives := true
    supportsAllDrives := true
    fields := "files(id, name)"
    orderBy := "modifiedTime desc" }

/-- `list_spreadsheets` (lines 350-388). -/
def list_spreadsheets (folder_id : Option String)
    (remote : DriveListRequest → Except String DriveListResponse) :
    Except String (List SpreadsheetEntry) × List LogMsg :=
  match remote (list_spreadsheets_request folder_id) with
  | Except.ok r =>
      let fs := r.files.getD []
      (Except.ok (fs.map fun f => { id := f.id, title := f.name }),
       [LogMsg.foundSpreadsheets fs.length])
  | Except.error e => (Except.error e, [LogMsg.errorListingSpreadsheets e])

/-- Request of `spreadsheets().values().append` (lines 416-421). -/
structure ValuesAppendRequest where
  spreadsheetId : String
  range : String
  valueInputOption : String
  values : List (List Cell)
  deriving DecidableEq, Repr

/-- The append request `add_rows` sends (lines 409-421): the `range`
parameter is the sheet name itself. -/
def add_rows_request (spreadsheet_id sheet : String) (data : List (List Cell)) :
    ValuesAppendRequest :=
  { spreadsheetId := spreadsheet_id
    range := sheet
    valueInputOption := "USER_ENTERED"
    values := data }

/-- `add_rows` (lines 391-427); the native append result `U` is returned
unmodified, and the success log reports `len(data)` appended rows. -/
def add_rows {U : Type} (spreadsheet_id sheet : String) (data : List (List Cell))
    (remote : ValuesAppendRequest → Except String U) :
    Except String U × List LogMsg :=
  match remote (add_rows_request spreadsheet_id sheet data) with
  | Except.ok r => (Except.ok r, [LogMsg.addedRows data.length spreadsheet_id sheet])
  | Except.error e => (Except.error e, [LogMsg.errorAddingRows e])

/-- `properties` of one sheet in the spreadsheet metadata. -/
structure SheetProperties where
  title : String
  deriving DecidableEq, Repr

/-- One entry of `spreadsheet['sheets']`. -/
structure SheetInfo where
  properties : SheetProperties
  deriving DecidableEq, Repr

/-- Spreadsheet metadata returned by `spreadsheets().get` (line 445). -/
structure SpreadsheetMeta where
  sheets : List SheetInfo
  deriving DecidableEq, Repr

/-- `list_sheets` (lines 430-454): map each sheet to its properties title. -/
def list_sheets (spreadsheet_id : String)
    (remote : String → Except String SpreadsheetMeta) :
    Except String (List String) × List LogMsg :=
  match remote spreadsheet_id with
  | Except.ok m =>
      let names := m.sheets.map fun s => s.properties.title
      (Except.ok names, [LogMsg.foundSheets names.length spreadsheet_id])
  | Except.error e => (Except.error e, [LogMsg.errorListingSheets e])

/-- Properties of the `addSheet` request body (lines 474-484). -/
structure AddSheetPropsReq where
  title : String
  deriving DecidableEq, Repr

/-- One entry of the `requests` list of the batch-update body. -/
inductive SheetsBatchRequest where
  | addSheet (properties : AddSheetPropsReq)
  deriving DecidableEq, Repr

/-- Body of `spreadsheets().batchUpdate` (lines 474-484). -/
structure BatchUpdateBody where
  requests : List SheetsBatchRequest
  deriving DecidableEq, Repr

/-- Properties of the newly created sheet in the batch-update reply. -/
structure NewSheetProperties where
  sheetId : Nat
  title : String
  index : Option Nat
  deriving DecidableEq, Repr

/-- One entry of `result['replies']`. -/
structure AddSheetReply where
  properties : NewSheetProperties
  deriving DecidableEq, Repr

/-- Response of `spreadsheets().batchUpdate`. -/
structure BatchUpdateResponse where
  replies : List AddSheetReply
  deriving DecidableEq, Repr

/-- The return shape of `create_sheet` (lines 497-502). -/
structure CreateSheetResult where
  sheetId : Nat
  title : String
  index : Option Nat
  spreadsheetId : String
  deriving DecidableEq, Repr

/-- The batch-update body `create_sheet` builds (lines 474-484). -/
def create_sheet_body (title : String) : BatchUpdateBody :=
  { requests := [SheetsBatchRequest.addSheet { title := title }] }

/-- `create_sheet` (lines 457-505); `result['replies'][0]` raises `IndexError`
on an empty replies list, caught and re-raised by the same handler. -/
def create_sheet (spreadsheet_id title : String)
    (remote : String → BatchUpdateBody → Except String BatchUpdateResponse) :
    Except String CreateSheetResult × List LogMsg :=
  match remote spreadsheet_id (create_sheet_body title) with
  | Except.ok resp =>
      match resp.replies with
      | [] =>
          (Except.error "IndexError: list index out of range",
           [LogMsg.errorCreatingSheet "IndexError: list index out of range"])
      | r :: _ =>
          (Except.ok { sheetId := r.properties.sheetId
                       title := r.properties.title
                       index := r.properties.index
                       spreadsheetId := spreadsheet_id },
           [LogMsg.createdSheet title spreadsheet_id])
  | Except.error e => (Except.error e, [LogMsg.errorCreatingSheet e])

/-! ## Concrete worlds used by the lifespan claims -/

/-- A configuration in which no credential source yields a valid credential:
no inline blob, no service-account file, a cached token that loads but is
expired with no refresh capability, an interactive flow that would fail, and
failing Application Default Credentials. -/
def worldNoValidCred : World :=
  { credentialsConfig := none
    inlineParseOk := false
    serviceAccountPath := "service-account-key.json"
    saPathExists := false
    saLoadOk := false
    tokenPathExists := true
    tokenLoadOk := true
    tokenValid := false
    tokenExpired := true
    tokenHasRefresh := false
    refreshSucceeds := false
    flowSucceeds := false
    tokenSaveOk := false
    adcSucceeds := false
    sheetsBuildOk := true
    driveBuildOk := true
    driveFolderId := ""
    bodyOk := true }

/-- A configuration with a cached token that is expired and refreshable and
whose refresh would succeed if the refresh call were ever made. -/
def worldRefreshable : World :=
  { credentialsConfig := none
    inlineParseOk := false
    serviceAccountPath := "service-account-key.json"
    saPathExists := false
    saLoadOk := false
    tokenPathExists := true
    tokenLoadOk := true
    tokenValid := false
    tokenExpired := true
    tokenHasRefresh := true
    refreshSucceeds := true
    flowSucceeds := true
    tokenSaveOk := true
    adcSucceeds := false
    sheetsBuildOk := true
    driveBuildOk := true
    driveFolderId := ""
    bodyOk := true }

/-- A configuration in which credentials resolve (valid inline blob) but
building the first service handle raises. -/
def worldBuildFail : World :=
  { credentialsConfig := some "eyJibG9iIjogMX0="
    inlineParseOk := true
    serviceAccountPath := "service-account-key.json"
    saPathExists := false
    saLoadOk := false
    tokenPathExists := false
    tokenLoadOk := false
    tokenValid := false
    tokenExpired := false
    tokenHasRefresh := false
    refreshSucceeds := false
    flowSucceeds := false
    tokenSaveOk := false
    adcSucceeds := false
    sheetsBuildOk := false
    driveBuildOk := false
    driveFolderId := ""
    bodyOk := true }

/-- A fully successful configuration: valid inline blob, both service handles
build, and the server body exits normally. -/
def worldAllOk : World :=
  { worldBuildFail with sheetsBuildOk := true, driveBuildOk := true }

/-- The fixed order in which credential-resolution events can occur. -/
def credEvOrder : List Ev :=
  [Ev.inlineAttempt, Ev.fileAttempt, Ev.tokenLoadAttempt, Ev.refreshInvoked,
   Ev.refreshError, Ev.flowAttempt, Ev.tokenSaved, Ev.adcAttempt]

/-! ## Helper lemmas on the resolution chain -/

theorem chain_none (t : List Ev) (f : Unit → Option Creds × List Ev) :
    chain (none, t) f = ((f ()).1, t ++ (f ()).2) := rfl

theorem chain_some (c : Creds) (t : List Ev) (f : Unit → Option Creds × List Ev) :
    chain (some c, t) f = (some c, t) := rfl

theorem nameDefined_Request : nameDefined "Request" = false := by decide

theorem inlineStep_snd_sublist (w : World) :
    (inlineStep w).2.Sublist [Ev.inlineAttempt] := by
  unfold inlineStep
  split
  · split <;> decide
  · decide

theorem fileStep_snd_sublist (w : World) :
    (fileStep w).2.Sublist [Ev.fileAttempt] := by
  unfold fileStep
  split
  · split <;> decide
  · decide

theorem oauthLoadTrace_sublist (w : World) :
    (oauthLoadTrace w).Sublist [Ev.tokenLoadAttempt] := by
  unfold oauthLoadTrace
  split <;> decide

theorem refreshStep_snd_sublist (w : World) :
    (refreshStep w).2.Sublist
      [Ev.tokenLoadAttempt, Ev.refreshInvoked, Ev.refreshError] := by
  unfold refreshStep
  split
  · split
    · split
      · exact (oauthLoadTrace_sublist w).append (by decide)
      · exact (oauthLoadTrace_sublist w).append (by decide)
    · exact (oauthLoadTrace_sublist w).append (by decide)
  · exact (oauthLoadTrace_sublist w).trans (by decide)

theorem flowStep_snd_sublist (w : World) :
    (flowStep w).2.Sublist [Ev.flowAttempt, Ev.tokenSaved] := by
  unfold flowStep
  split
  · split <;> decide
  · decide

theorem chain_snd_cases (acc : Option Creds × List Ev)
    (f : Unit → Option Creds × List Ev) :
    (chain acc f).2 = acc.2 ∨ (chain acc f).2 = acc.2 ++ (f ()).2 := by
  rcases acc with ⟨c, t⟩
  cases c
  · exact Or.inr rfl
  · exact Or.inl rfl

theorem oauthStep_snd_sublist (w : World) :
    (oauthStep w).2.Sublist
      [Ev.tokenLoadAttempt, Ev.refreshInvoked, Ev.refreshError,
       Ev.flowAttempt, Ev.tokenSaved] := by
  unfold oauthStep
  split
  · exact (oauthLoadTrace_sublist w).trans (by decide)
  · rcases chain_snd_cases (refreshStep w) (fun _ => flowStep w) with h | h <;> rw [h]
    · exact (refreshStep_snd_sublist w).trans (by decide)
    · exact (refreshStep_snd_sublist w).append (flowStep_snd_sublist w)

theorem resolveCredsOpt_snd_sublist (w : World) :
    (resolveCredsOpt w).2.Sublist
      [Ev.inlineAttempt, Ev.fileAttempt, Ev.tokenLoadAttempt, Ev.refreshInvoked,
       Ev.refreshError, Ev.flowAttempt, Ev.tokenSaved] := by
  unfold resolveCredsOpt
  have hinner :
      (chain (inlineStep w) (fun _ => fileStep w)).2.Sublist
        [Ev.inlineAttempt, Ev.fileAttempt] := by
    rcases chain_snd_cases (inlineStep w) (fun _ => fileStep w) with h | h <;> rw [h]
    · exact (inlineStep_snd_sublist w).trans (by decide)
    · exact (inlineStep_snd_sublist w).append (fileStep_snd_sublist w)
  rcases chain_snd_cases (chain (inlineStep w) (fun _ => fileStep w))
      (fun _ => oauthStep w) with h | h <;> rw [h]
  · exact hinner.trans (by decide)
  · exact hinner.append (oauthStep_snd_sublist w)

theorem resolveCreds_snd_sublist (w : World) :
    (resolveCreds w).2.Sublist credEvOrder := by
  unfold resolveCreds
  rcases hro : resolveCredsOpt w with ⟨c, t⟩
  have hts : t.Sublist
      [Ev.inlineAttempt, Ev.fileAttempt, Ev.tokenLoadAttempt, Ev.refreshInvoked,
       Ev.refreshError, Ev.flowAttempt, Ev.tokenSaved] := by
    have := resolveCredsOpt_snd_sublist w
    rwa [hro] at this
  cases c
  · dsimp only
    split <;> exact hts.append (by decide)
  · dsimp only
    exact hts.trans (by decide)

theorem resolveCreds_of_some (w : World) (c : Creds) (t : List Ev)
    (h : resolveCredsOpt w = (some c, t)) :
    resolveCreds w = (Except.ok c, t) := by
  unfold resolveCreds
  rw [h]

theorem not_mem_of_sublist {e : Ev} {l L : List Ev} (h : l.Sublist L)
    (he : e ∉ L) : e ∉ l :=
  fun hm => he (h.subset hm)

theorem inlineStep_of_ok (w : World) (h : inlineOk w = true) :
    inlineStep w = (some Creds.inlineSA, [Ev.inlineAttempt]) := by
  unfold inlineOk at h
  rw [Bool.and_eq_true] at h
  unfold inlineStep
  simp [h.1, h.2]

theorem inlineStep_fst_of_notOk (w : World) (h : inlineOk w = false) :
    (inlineStep w).1 = none := by
  unfold inlineOk at h
  unfold inlineStep
  cases hb : pyTruthyOpt w.credentialsConfig
  · simp
  · rw [hb, Bool.true_and] at h
    simp [h]

theorem fileStep_of_ok (w : World) (h : fileOk w = true) :
    fileStep w = (some Creds.fileSA, [Ev.fileAttempt]) := by
  unfold fileOk at h
  simp only [Bool.and_eq_true] at h
  obtain ⟨⟨h1, h2⟩, h3⟩ := h
  unfold fileStep
  rw [h1, h2, h3]
  simp

theorem fileStep_fst_of_notOk (w : World) (h : fileOk w = false) :
    (fileStep w).1 = none := by
  have h' : ¬ ((w.serviceAccountPath != "") = true ∧ w.saPathExists = true ∧
      w.saLoadOk = true) := by
    rintro ⟨a, b, c⟩
    unfold fileOk at h
    rw [a, b, c] at h
    simp at h
  unfold fileStep
  cases h1 : ((w.serviceAccountPath != "") && w.saPathExists)
  · simp
  · rw [Bool.and_eq_true] at h1
    cases h2 : w.saLoadOk
    · simp
    · exact absurd ⟨h1.1, h1.2, h2⟩ h'

theorem tokenOk_iff_loaded_valid (w : World) :
    tokenOk w = (tokenLoaded w && w.tokenValid) := by
  unfold tokenOk
  rw [nameDefined_Request]
  simp

theorem oauthStep_of_validToken (w : World) (hl : tokenLoaded w = true)
    (hv : w.tokenValid = true) :
    oauthStep w =
      (some (Creds.userToken w.tokenValid w.tokenExpired w.tokenHasRefresh),
       [Ev.tokenLoadAttempt]) := by
  have hp : w.tokenPathExists = true := by
    unfold tokenLoaded at hl
    exact (Bool.and_eq_true _ _ |>.mp hl).1
  unfold oauthStep
  simp [hl, hv, oauthLoadTrace, hp]

theorem flowStep_of_ok (w : World) (h : flowOk w = true) :
    flowStep w = (some Creds.flowToken, [Ev.flowAttempt, Ev.tokenSaved]) := by
  unfold flowOk at h
  rw [Bool.and_eq_true] at h
  unfold flowStep
  simp [h.1, h.2]

theorem oauthStep_fst_some_of (w : World) (h3 : tokenOk w = false)
    (h4 : flowOk w = true) : (oauthStep w).1.isSome = true := by
  rw [tokenOk_iff_loaded_valid] at h3
  unfold oauthStep
  rw [h3]
  simp only [Bool.false_eq_true, if_false]
  rcases hre : refreshStep w with ⟨cr, tr⟩
  cases cr
  · rw [chain_none, flowStep_of_ok w h4]
    rfl
  · rw [chain_some]
    rfl

theorem adcAttempt_not_mem_of_fst_some (w : World)
    (h : (resolveCredsOpt w).1.isSome = true) :
    Ev.adcAttempt ∉ (resolveCreds w).2 := by
  unfold resolveCreds
  rcases hro : resolveCredsOpt w with ⟨c, t⟩
  rw [hro] at h
  have hts := resolveCredsOpt_snd_sublist w
  rw [hro] at hts
  cases c
  · simp at h
  · dsimp only
    exact not_mem_of_sublist hts (by decide)

/-! ## Claim theorems on the lifespan -/

/-- C1: credential resolution tries the sources in the fixed order
inline-blob, service-account file, cached token (with refresh), interactive
flow, ambient default (the run trace is a sublist of that fixed event order),
and for every configuration in which source k yields a valid credential, no
source after k is invoked. -/
theorem C1_short_circuit (w : World) :
    ((resolveCreds w).2.Sublist credEvOrder)
    ∧ (inlineOk w = true →
        Ev.fileAttempt ∉ (resolveCreds w).2 ∧
        Ev.tokenLoadAttempt ∉ (resolveCreds w).2 ∧
        Ev.refreshInvoked ∉ (resolveCreds w).2 ∧
        Ev.refreshError ∉ (resolveCreds w).2 ∧
        Ev.flowAttempt ∉ (resolveCreds w).2 ∧
        Ev.adcAttempt ∉ (resolveCreds w).2)
    ∧ (inlineOk w = false → fileOk w = true →
        Ev.tokenLoadAttempt ∉ (resolveCreds w).2 ∧
        Ev.refreshInvoked ∉ (resolveCreds w).2 ∧
        Ev.refreshError ∉ (resolveCreds w).2 ∧
        Ev.flowAttempt ∉ (resolveCreds w).2 ∧
        Ev.adcAttempt ∉ (resolveCreds w).2)
    ∧ (inlineOk w = false → fileOk w = false → tokenOk w = true →
        Ev.flowAttempt ∉ (resolveCreds w).2 ∧
        Ev.adcAttempt ∉ (resolveCreds w).2)
    ∧ (inlineOk w = false → fileOk w = false → tokenOk w = false →
        flowOk w = true →
        Ev.adcAttempt ∉ (resolveCreds w).2) := by
  refine ⟨resolveCreds_snd_sublist w, ?_, ?_, ?_, ?_⟩
  · intro h
    have hr : resolveCreds w = (Except.ok Creds.inlineSA, [Ev.inlineAttempt]) := by
      apply resolveCreds_of_some
      unfold resolveCredsOpt
      rw [inlineStep_of_ok w h, chain_some, chain_some]
    rw [hr]
    refine ⟨by decide, by decide, by decide, by decide, by decide, by decide⟩
  · intro h1 h2
    rcases hie : inlineStep w with ⟨ci, ti⟩
    have hci : ci = none := by
      have := inlineStep_fst_of_notOk w h1
      rw [hie] at this
      exact this
    subst hci
    have hti : ti.Sublist [Ev.inlineAttempt] := by
      have := inlineStep_snd_sublist w
      rw [hie] at this
      exact this
    have hr : resolveCreds w = (Except.ok Creds.fileSA, ti ++ [Ev.fileAttempt]) := by
      apply resolveCreds_of_some
      unfold resolveCredsOpt
      rw [hie, chain_none, fileStep_of_ok w h2, chain_some]
    rw [hr]
    have hsub : (ti ++ [Ev.fileAttempt]).Sublist [Ev.inlineAttempt, Ev.fileAttempt] :=
      hti.append (by decide)
    exact ⟨not_mem_of_sublist hsub (by decide), not_mem_of_sublist hsub (by decide),
      not_mem_of_sublist hsub (by decide), not_mem_of_sublist hsub (by decide),
      not_mem_of_sublist hsub (by decide)⟩
  · intro h1 h2 h3
    rw [tokenOk_iff_loaded_valid, Bool.and_eq_true] at h3
    rcases hie : inlineStep w with ⟨ci, ti⟩
    have hci : ci = none := by
      have := inlineStep_fst_of_notOk w h1
      rw [hie] at this
      exact this
    subst hci
    have hti : ti.Sublist [Ev.inlineAttempt] := by
      have := inlineStep_snd_sublist w
      rw [hie] at this
      exact this
    rcases hfe : fileStep w with ⟨cf, tf⟩
    have hcf : cf = none := by
      have := fileStep_fst_of_notOk w h2
      rw [hfe] at this
      exact this
    subst hcf
    have htf : tf.Sublist [Ev.fileAttempt] := by
      have := fileStep_snd_sublist w
      rw [hfe] at this
      exact this
    have hr : resolveCreds w =
        (Except.ok (Creds.userToken w.tokenValid w.tokenExpired w.tokenHasRefresh),
         (ti ++ tf) ++ [Ev.tokenLoadAttempt]) := by
      apply resolveCreds_of_some
      unfold resolveCredsOpt
      rw [hie, chain_none, hfe, chain_none, oauthStep_of_validToken w h3.1 h3.2]
    rw [hr]
    have hsub : ((ti ++ tf) ++ [Ev.tokenLoadAttempt]).Sublist
        ([Ev.inlineAttempt] ++ [Ev.fileAttempt] ++ [Ev.tokenLoadAttempt]) :=
      (hti.append htf).append (by decide)
    exact ⟨not_mem_of_sublist hsub (by decide), not_mem_of_sublist hsub (by decide)⟩
  · intro h1 h2 h3 h4
    apply adcAttempt_not_mem_of_fst_some
    rcases hie : inlineStep w with ⟨ci, ti⟩
    have hci : ci = none := by
      have := inlineStep_fst_of_notOk w h1
      rw [hie] at this
      exact this
    subst hci
    rcases hfe : fileStep w with ⟨cf, tf⟩
    have hcf : cf = none := by
      have := fileStep_fst_of_notOk w h2
      rw [hfe] at this
      exact this
    subst hcf
    unfold resolveCredsOpt
    rw [hie, chain_none, hfe, chain_none]
    exact oauthStep_fst_some_of w h3 h4

/-- Closed witness for C1: concrete configurations exercising conjuncts with
hypotheses — a valid inline blob short-circuits everything after it, and a
configuration whose first valid source is the interactive flow never reaches
ADC. -/
theorem C1_short_circuit_witness :
    (inlineOk worldAllOk = true ∧
      Ev.fileAttempt ∉ (resolveCreds worldAllOk).2 ∧
      Ev.adcAttempt ∉ (resolveCreds worldAllOk).2)
    ∧ (inlineOk worldRefreshable = false ∧ fileOk worldRefreshable = false ∧
      tokenOk worldRefreshable = false ∧ flowOk worldRefreshable = true ∧
      Ev.adcAttempt ∉ (resolveCreds worldRefreshable).2) := by
  have h1 := (C1_short_circuit worldAllOk).2.1 (by decide)
  have h2 := (C1_short_circuit worldRefreshable).2.2.2.2
    (by decide) (by decide) (by decide) (by decide)
  exact ⟨⟨by decide, h1.1, h1.2.2.2.2.2⟩, by decide, by decide, by decide, by decide, h2⟩

/-- C5 amended: the teardown step executes on every exit path on which
initialization completed and the context was yielded — both on normal
shutdown and when the server body raises — but not when initialization fails
before the yield. -/
theorem C5_cleanup_after_yield (w : World)
    (h : Ev.yielded ∈ (spreadsheet_lifespan w).2) :
    Ev.cleanup ∈ (spreadsheet_lifespan w).2 := by
  unfold spreadsheet_lifespan at h ⊢
  rcases hr : resolveCreds w with ⟨res, t⟩
  rw [hr] at h
  have hts : t.Sublist credEvOrder := by
    have := resolveCreds_snd_sublist w
    rwa [hr] at this
  cases res
  case error e =>
    dsimp only at h
    exact absurd (hts.subset h) (by decide)
  case ok c =>
    dsimp only at h ⊢
    by_cases hb : (w.sheetsBuildOk && w.driveBuildOk) = true
    · simp only [hb, if_true] at h ⊢
      by_cases ho : w.bodyOk = true
      · simp only [ho, if_true] at h ⊢
        simp
      · simp only [ho, Bool.false_eq_true, if_false] at h ⊢
        simp
    · simp only [Bool.not_eq_true] at hb
      simp only [hb, Bool.false_eq_true, if_false] at h
      exact absurd (hts.subset h) (by decide)

/-- Closed witness for C5's amended statement at a fully successful run. -/
theorem C5_cleanup_after_yield_witness :
    Ev.yielded ∈ (spreadsheet_lifespan worldAllOk).2 ∧
    Ev.cleanup ∈ (spreadsheet_lifespan worldAllOk).2 :=
  ⟨by decide, C5_cleanup_after_yield worldAllOk (by decide)⟩

/-- C6: `validate_api_key(provided)` returns true iff `provided` bit-for-bit
equals the configured secret (which is never empty at check time); an empty
provided or configured secret always yields false; and when no secret is
configured via the environment a non-empty generated one is used, so the
configured key is never empty.  The comparison is the standard constant-time
primitive `secrets.compare_digest`, modelled functionally by `compare_digest`. -/
theorem C6_api_key_check (p k gen : String) (envKey : Option String) :
    (k ≠ "" → (validate_api_key p k = true ↔ p = k))
    ∧ validate_api_key "" k = false
    ∧ validate_api_key p "" = false
    ∧ (gen ≠ "" → apiKeyStartup envKey gen ≠ "") := by
  refine ⟨?_, ?_, ?_, ?_⟩
  · intro hk
    unfold validate_api_key compare_digest
    by_cases hp : p = ""
    · subst hp
      simp [hk]
      intro h
      exact hk h.symm
    · simp [hp, hk]
  · simp [validate_api_key]
  · simp [validate_api_key]
  · intro hg
    unfold apiKeyStartup pyTruthyOpt
    by_cases he : envKey.getD "" = ""
    · simp [he, hg]
    · simp [he]

/-- Closed witness for C6 at concrete keys. -/
theorem C6_api_key_check_witness :
    (validate_api_key "s3cret" "s3cret" = true ↔ "s3cret" = "s3cret")
    ∧ validate_api_key "" "s3cret" = false
    ∧ validate_api_key "x" "" = false
    ∧ apiKeyStartup none "generatedKey" ≠ "" := by
  obtain ⟨h1, h2, h3, h4⟩ := C6_api_key_check "s3cret" "s3cret" "generatedKey" none
  exact ⟨h1 (by decide), h2, h3, h4 (by decide)⟩

/-- C3: a successful `get_sheet_data` call with `include_grid_data=false`
returns `{spreadsheetId, valueRanges}` where `valueRanges` is exactly one
element whose `range` is the constructed sheet/range string and whose
`values` equals the remote values, defaulting to `[]` when the remote
response has no `values` key. -/
theorem C3_values_only_shape {G : Type} (id sheet : String) (r : Option String)
    (remoteGrid : GridGetRequest → Except String G)
    (remoteValues : ValuesGetRequest → Except String ValuesGetResponse)
    (resp : ValuesGetResponse)
    (h : remoteValues (values_get_request id sheet r) = Except.ok resp) :
    (get_sheet_data id sheet r false remoteGrid remoteValues).1 =
      Except.ok (GetSheetDataOk.valuesOnly
        { spreadsheetId := id
          valueRanges := [{ range := fullRangeOf sheet r
                            values := resp.values.getD [] }] }) := by
  unfold get_sheet_data
  simp [h]

/-- Closed witness for C3: a concrete values response, and a concrete
response with the `values` key absent defaulting to the empty list. -/
theorem C3_values_only_shape_witness :
    (get_sheet_data (G := Unit) "sid" "Sheet1" (some "A1:B2") false
        (fun _ => Except.error "grid unused")
        (fun _ => Except.ok { values := some [["x", "y"]] })).1 =
      Except.ok (GetSheetDataOk.valuesOnly
        { spreadsheetId := "sid"
          valueRanges := [{ range := fullRangeOf "Sheet1" (some "A1:B2")
                            values := [["x", "y"]] }] })
    ∧ (get_sheet_data (G := Unit) "sid" "Sheet1" none false
        (fun _ => Except.error "grid unused")
        (fun _ => Except.ok { values := none })).1 =
      Except.ok (GetSheetDataOk.valuesOnly
        { spreadsheetId := "sid"
          valueRanges := [{ range := fullRangeOf "Sheet1" none, values := [] }] }) :=
  ⟨C3_values_only_shape "sid" "Sheet1" (some "A1:B2") _ _ { values := some [["x", "y"]] } rfl,
   C3_values_only_shape "sid" "Sheet1" none _ _ { values := none } rfl⟩

/-- C9: `add_rows` issues its append call with the `range` parameter equal to
the sheet name exactly as given, and on success logs the number of appended
rows, which is the length of the provided 2D data list. -/
theorem C9_append_targets_sheet {U : Type} (id sheet : String)
    (data : List (List Cell)) (remote : ValuesAppendRequest → Except String U)
    (r : U) :
    (add_rows_request id sheet data).range = sheet
    ∧ (remote (add_rows_request id sheet data) = Except.ok r →
        add_rows id sheet data remote =
          (Except.ok r, [LogMsg.addedRows data.length id sheet])) := by
  constructor
  · rfl
  · intro h
    unfold add_rows
    simp [h]

/-- Closed witness for C9 at the spec's example input. -/
theorem C9_append_targets_sheet_witness :
    (add_rows_request "sid" "Sheet1" [["a", "b"], ["c", "d"]]).range = "Sheet1"
    ∧ add_rows (U := Unit) "sid" "Sheet1" [["a", "b"], ["c", "d"]] (fun _ => Except.ok ()) =
        (Except.ok (), [LogMsg.addedRows 2 "sid" "Sheet1"]) := by
  obtain ⟨h1, h2⟩ :=
    C9_append_targets_sheet (U := Unit) "sid" "Sheet1" [["a", "b"], ["c", "d"]]
      (fun _ => Except.ok ()) ()
  exact ⟨h1, h2 rfl⟩

/-- C10 counterexample: with the range argument provided as the empty string,
the range sent to the remote API is the bare sheet name, not the sheet name
followed by the separator; the echoing remote shows the string actually sent. -/
theorem C10_empty_range_counterexample :
    fullRangeOf "Sheet1" (some "") = "Sheet1"
    ∧ "Sheet1" ≠ "Sheet1" ++ "!" ++ ""
    ∧ (get_sheet_data (G := Unit) "sid" "Sheet1" (some "") false
        (fun _ => Except.error "grid unused")
        (fun req => Except.ok { values := some [[req.range]] })).1 =
      Except.ok (GetSheetDataOk.valuesOnly
        { spreadsheetId := "sid"
          valueRanges := [{ range := "Sheet1", values := [["Sheet1"]] }] }) := by
  refine ⟨by decide, by decide, ?_⟩
  rfl

/-- C10 amended: the range string sent to the remote API is the sheet name
followed by the separator and the range argument when a non-empty range is
provided, and the bare sheet name when the range argument is omitted, `None`,
or the empty string. -/
theorem C10_full_range_amended (id sheet s : String) (r : Option String) :
    (values_get_request id sheet r).range = fullRangeOf sheet r
    ∧ (grid_get_request id sheet r).ranges = [fullRangeOf sheet r]
    ∧ (r = some s → s ≠ "" → fullRangeOf sheet r = sheet ++ "!" ++ s)
    ∧ ((r = none ∨ r = some "") → fullRangeOf sheet r = sheet) := by
  refine ⟨rfl, rfl, ?_, ?_⟩
  · intro hr hs
    subst hr
    simp [fullRangeOf, pyTruthyOpt, hs]
  · rintro (hr | hr) <;> subst hr <;> simp [fullRangeOf, pyTruthyOpt]

/-- Closed witness for C10's amended statement. -/
theorem C10_full_range_amended_witness :
    (values_get_request "sid" "Sheet1" (some "A1:C10")).range =
      fullRangeOf "Sheet1" (some "A1:C10")
    ∧ fullRangeOf "Sheet1" (some "A1:C10") = "Sheet1" ++ "!" ++ "A1:C10"
    ∧ fullRangeOf "Sheet1" none = "Sheet1" := by
  obtain ⟨h1, _, h3, h4⟩ :=
    C10_full_range_amended "sid" "Sheet1" "A1:C10" (some "A1:C10")
  refine ⟨h1, h3 rfl (by decide), ?_⟩
  obtain ⟨_, _, _, h4'⟩ := C10_full_range_amended "sid" "Sheet1" "A1:C10" none
  exact h4' (Or.inl rfl)

/-- C8 counterexample: with no folder configured the request body has no
`parents` field, but when the remote response carries a `parents` list the
returned `folder` field is its first element, not the string `"root"`. -/
theorem C8_folder_from_response_counterexample :
    (create_file_body "T" none).parents = none
    ∧ (create_spreadsheet "T" none
        (fun _ => Except.ok
          { id := some "NEWID", name := some "T", parents := some ["PARENT"] })).1 =
      Except.ok { spreadsheetId := some "NEWID", title := "T", folder := "PARENT" }
    ∧ "PARENT" ≠ "root" := by
  refine ⟨rfl, rfl, by decide⟩

/-- C8 amended: with a configured working-folder identifier the request body
carries exactly that identifier as the sole parent; with no folder configured
the request body has no `parents` field, and the returned `folder` field is
the first element of the response parents when that list is present and
non-empty, else the string `"root"`. -/
theorem C8_create_spreadsheet_amended (title fid : String)
    (remote : FileBody → Except String DriveFile) (resp : DriveFile) :
    (fid ≠ "" → (create_file_body title (some fid)).parents = some [fid])
    ∧ (create_file_body title none).parents = none
    ∧ (remote (create_file_body title none) = Except.ok resp →
        (create_spreadsheet title none remote).1 =
          Except.ok { spreadsheetId := resp.id
                      title := resp.name.getD title
                      folder := folderField resp.parents })
    ∧ folderField none = "root"
    ∧ folderField (some []) = "root" := by
  refine ⟨?_, rfl, ?_, rfl, rfl⟩
  · intro hf
    simp [create_file_body, hf]
  · intro h
    unfold create_spreadsheet
    simp [h]

/-- Closed witness for C8's amended statement. -/
theorem C8_create_spreadsheet_amended_witness :
    (create_file_body "T" (some "FOLDER")).parents = some ["FOLDER"]
    ∧ (create_file_body "T" none).parents = none
    ∧ (create_spreadsheet "T" none
        (fun _ => Except.ok { id := some "NEWID", name := none, parents := none })).1 =
      Except.ok { spreadsheetId := some "NEWID", title := "T", folder := "root" } := by
  obtain ⟨h1, h2, h3, h4, _⟩ :=
    C8_create_spreadsheet_amended "T" "FOLDER"
      (fun _ => Except.ok { id := some "NEWID", name := none, parents := none })
      { id := some "NEWID", name := none, parents := none }
  exact ⟨h1 (by decide), h2, by simpa [h4] using h3 rfl⟩

/-- C7: for every tool and every failing remote call, the failure is caught,
logged with operation context, and re-raised to the caller carrying the
original cause `e`; no tool returns a success value after its remote call
failed.  Both remote variants of `get_sheet_data` and all six other
remote-calling tools are covered (`health_check` makes no remote call). -/
theorem C7_remote_failures_reraised {G U V : Type} (e : String)
    (id sheet rng title : String) (r : Option String) (data : List (List Cell))
    (fid : Option String)
    (remoteGrid : GridGetRequest → Except String G)
    (remoteValues : ValuesGetRequest → Except String ValuesGetResponse)
    (remoteUpdate : ValuesUpdateRequest → Except String U)
    (remoteCreate : FileBody → Except String DriveFile)
    (remoteList : DriveListRequest → Except String DriveListResponse)
    (remoteAppend : ValuesAppendRequest → Except String V)
    (remoteMeta : String → Except String SpreadsheetMeta)
    (remoteBatch : String → BatchUpdateBody → Except String BatchUpdateResponse) :
    (remoteGrid (grid_get_request id sheet r) = Except.error e →
      get_sheet_data id sheet r true remoteGrid remoteValues =
        (Except.error e, [LogMsg.errorGettingSheetData e]))
    ∧ (remoteValues (values_get_request id sheet r) = Except.error e →
      get_sheet_data id sheet r false remoteGrid remoteValues =
        (Except.error e, [LogMsg.errorGettingSheetData e]))
    ∧ (remoteUpdate (update_cells_request id sheet rng data) = Except.error e →
      update_cells id sheet rng data remoteUpdate =
        (Except.error e, [LogMsg.errorUpdatingCells e]))
    ∧ (remoteCreate (create_file_body title fid) = Except.error e →
      create_spreadsheet title fid remoteCreate =
        (Except.error e, [LogMsg.errorCreatingSpreadsheet e]))
    ∧ (remoteList (list_spreadsheets_request fid) = Except.error e →
      list_spreadsheets fid remoteList =
        (Except.error e, [LogMsg.errorListingSpreadsheets e]))
    ∧ (remoteAppend (add_rows_request id sheet data) = Except.error e →
      add_rows id sheet data remoteAppend =
        (Except.error e, [LogMsg.errorAddingRows e]))
    ∧ (remoteMeta id = Except.error e →
      list_sheets id remoteMeta =
        (Except.error e, [LogMsg.errorListingSheets e]))
    ∧ (remoteBatch id (create_sheet_body title) = Except.error e →
      create_sheet id title remoteBatch =
        (Except.error e, [LogMsg.errorCreatingSheet e])) := by
  refine ⟨?_, ?_, ?_, ?_, ?_, ?_, ?_, ?_⟩ <;> intro h
  · unfold get_sheet_data; simp [h]
  · unfold get_sheet_data; simp [h]
  · unfold update_cells; simp [h]
  · unfold create_spreadsheet; simp [h]
  · unfold list_spreadsheets; simp [h]
  · unfold add_rows; simp [h]
  · unfold list_sheets; simp [h]
  · unfold create_sheet; simp [h]

/-- Closed witness for C7: every tool applied to a failing remote returns the
original error and its operation-context error log. -/
theorem C7_remote_failures_reraised_witness :
    get_sheet_data (G := Unit) "sid" "S" none true
        (fun _ => Except.error "boom") (fun _ => Except.error "boom") =
      (Except.error "boom", [LogMsg.errorGettingSheetData "boom"])
    ∧ get_sheet_data (G := Unit) "sid" "S" none false
        (fun _ => Except.error "boom") (fun _ => Except.error "boom") =
      (Except.error "boom", [LogMsg.errorGettingSheetData "boom"])
    ∧ update_cells (U := Unit) "sid" "S" "A1:B2" [["v"]] (fun _ => Except.error "boom") =
      (Except.error "boom", [LogMsg.errorUpdatingCells "boom"])
    ∧ create_spreadsheet "T" none (fun _ => Except.error "boom") =
      (Except.error "boom", [LogMsg.errorCreatingSpreadsheet "boom"])
    ∧ list_spreadsheets none (fun _ => Except.error "boom") =
      (Except.error "boom", [LogMsg.errorListingSpreadsheets "boom"])
    ∧ add_rows (U := Unit) "sid" "S" [["v"]] (fun _ => Except.error "boom") =
      (Except.error "boom", [LogMsg.errorAddingRows "boom"])
    ∧ list_sheets "sid" (fun _ => Except.error "boom") =
      (Except.error "boom", [LogMsg.errorListingSheets "boom"])
    ∧ create_sheet "sid" "T" (fun _ _ => Except.error "boom") =
      (Except.error "boom", [LogMsg.errorCreatingSheet "boom"]) := by
  obtain ⟨h1, h2, h3, h4, h5, h6, h7, h8⟩ :=
    C7_remote_failures_reraised (G := Unit) (U := Unit) (V := Unit)
      "boom" "sid" "S" "A1:B2" "T" none [["v"]] none
      (fun _ => Except.error "boom") (fun _ => Except.error "boom")
      (fun _ => Except.error "boom") (fun _ => Except.error "boom")
      (fun _ => Except.error "boom") (fun _ => Except.error "boom")
      (fun _ => Except.error "boom") (fun _ _ => Except.error "boom")
  exact ⟨h1 rfl, h2 rfl, h3 rfl, h4 rfl, h5 rfl, h6 rfl, h7 rfl, h8 rfl⟩


/-- C2: the claim says that when every credential source fails to produce a
valid credential, resolution fails fatally and no `SpreadsheetContext` is
constructed.  The code violates this: in `worldNoValidCred` the cached token
loads but is invalid and non-refreshable, the `if not creds:` guard at line
126 sees a truthy credential object and skips the interactive flow, line 141
skips ADC, and a context is built around the invalid expired token with no
error raised (the flow and ADC sources are never even attempted). -/
theorem C2_invalid_token_context_built :
    (spreadsheet_lifespan worldNoValidCred).1 =
      Except.ok { sheets_service := Creds.userToken false true false
                  drive_service := Creds.userToken false true false
                  folder_id := none }
    ∧ Ev.flowAttempt ∉ (spreadsheet_lifespan worldNoValidCred).2
    ∧ Ev.adcAttempt ∉ (spreadsheet_lifespan worldNoValidCred).2
    ∧ worldNoValidCred.tokenValid = false := by
  refine ⟨rfl, by decide, by decide, rfl⟩

/-- C4: the claim says an in-place refresh of an expired refreshable cached
token is attempted.  The code violates this: line 120 evaluates the undefined
global name `Request` (the import binds only `GoogleRequest`), so a
`NameError` is raised before `creds.refresh` is ever invoked; even in
`worldRefreshable`, where the refresh would succeed, the token is discarded
and the interactive flow runs instead. -/
theorem C4_refresh_never_invoked :
    nameDefined "Request" = false
    ∧ nameDefined "GoogleRequest" = true
    ∧ worldRefreshable.refreshSucceeds = true
    ∧ Ev.refreshInvoked ∉ (resolveCreds worldRefreshable).2
    ∧ Ev.refreshError ∈ (resolveCreds worldRefreshable).2
    ∧ Ev.flowAttempt ∈ (resolveCreds worldRefreshable).2
    ∧ (resolveCreds worldRefreshable).1 = Except.ok Creds.flowToken := by
  refine ⟨by decide, by decide, rfl, by decide, by decide, by decide, rfl⟩

/-- C5 counterexample: when building a service handle raises, the lifespan
generator has not yet reached its `try`/`finally`, so the teardown step does
not execute on that exit path. -/
theorem C5_no_cleanup_on_build_failure :
    (spreadsheet_lifespan worldBuildFail).1 =
      Except.error "Error building Google API services"
    ∧ Ev.cleanup ∉ (spreadsheet_lifespan worldBuildFail).2
    ∧ Ev.yielded ∉ (spreadsheet_lifespan worldBuildFail).2 := by
  refine ⟨rfl, by decide, by decide⟩

end SheetsServer
